import Mathlib

/-!
Verification of the book-advisor app core (src/app.py): client
initialization, prompt building, the primary/fallback remote-call logic of
`generate_response`, its response decoding, and the chat wrapper.

Remote calls are modelled by an oracle (`Remote`) giving the outcome of the
one chat-completion call and the one text-generation call a single run of
`generate_response` can make.  Python exceptions are modelled as `PyExc`
values carrying the texts of `str(e)` and `repr(e)`; code that can raise
returns `Except PyExc α`, and a `try/except` block is a `match` on that
result.  `generate_response` additionally returns the list of remote calls
it issued, with the parameters it passed, so that claims about which calls
are made (and with which parameters) are statable.
-/

namespace BookAdvisor

/-- Model of a Python exception: the texts of `str(e)` and `repr(e)`. -/
structure PyExc where
  msg : String
  rep : String
deriving DecidableEq

/-- Fragment of Python values that remote responses can take: strings,
lists, dicts with string keys, and `None`.  This covers the JSON-ish
payloads the inference endpoint returns. -/
inductive PyVal where
  | str (s : String)
  | list (l : List PyVal)
  | dict (l : List (String × PyVal))
  | noneVal

/-- Python truthiness on the modelled value fragment. -/
def pyTruthy : PyVal → Bool
  | .str s => s != ""
  | .list l => !l.isEmpty
  | .dict l => !l.isEmpty
  | .noneVal => false

mutual

/-- Python `repr` on the modelled value fragment (single-quoted strings,
bracketed lists, braced dicts), as produced by `str()` on a container. -/
def pyRepr : PyVal → String
  | .str s => "\x27" ++ s ++ "\x27"
  | .list l => "[" ++ pyReprItems l ++ "]"
  | .dict l => "\x7b" ++ pyReprPairs l ++ "\x7d"
  | .noneVal => "None"

def pyReprItems : List PyVal → String
  | [] => ""
  | [v] => pyRepr v
  | v :: rest => pyRepr v ++ ", " ++ pyReprItems rest

def pyReprPairs : List (String × PyVal) → String
  | [] => ""
  | [kv] => "\x27" ++ kv.1 ++ "\x27: " ++ pyRepr kv.2
  | kv :: rest => "\x27" ++ kv.1 ++ "\x27: " ++ pyRepr kv.2 ++ ", " ++ pyReprPairs rest

end

/-- Python `str()` at top level: a string is itself, containers use `repr`. -/
def pyStrTop : PyVal → String
  | .str s => s
  | v => pyRepr v

/-- Python `s.strip()`: drop leading and trailing whitespace.  Python also
strips `\x0b`/`\x0c`, which never occur in the strings this app handles. -/
def pyStrip (s : String) : String :=
  String.mk (((s.data.dropWhile Char.isWhitespace).reverse.dropWhile
    Char.isWhitespace).reverse)

/-- Python `s.lower()` (ASCII lowering, matching the inputs of this app). -/
def pyLower (s : String) : String :=
  String.mk (s.data.map Char.toLower)

/-- Whether `pat` occurs as a contiguous sublist of `hay`. -/
def charsContain (hay pat : List Char) : Bool :=
  match hay with
  | [] => pat.isEmpty
  | _ :: rest => pat.isPrefixOf hay || charsContain rest pat

/-- Python `pat in s`: substring containment. -/
def strContains (s pat : String) : Bool :=
  charsContain s.data pat.data

/-- Python `min` on two floats, modelled on ℚ: the first argument when the
two are equal, as `min` returns. -/
def ratMin (a b : ℚ) : ℚ :=
  if a ≤ b then a else b

/-- The float literal `0.8` of src/app.py line 79, given in normalized
form so that it evaluates by kernel reduction; `float08_eq` below checks
it equals the literal. -/
def float08 : ℚ := ⟨4, 5, by norm_num, by norm_num⟩

/-- The float literal `0.7` (the default temperature of the app), in normalized
form; `temp07_eq` below checks it equals the literal. -/
def temp07 : ℚ := ⟨7, 10, by norm_num, by norm_num⟩

/-- `message` object of a chat-completion choice; its `content` attribute
may be `None`. -/
structure ChatMessage where
  content : Option String
deriving DecidableEq

/-- One element of the `choices` list of a chat-completion response. -/
structure ChatChoice where
  message : ChatMessage
deriving DecidableEq

/-- A value returned by `client.chat_completion`: either a structured
response object exposing a `choices` attribute, or a raw value (a dict or
other Python value). -/
inductive ChatResponse where
  | obj (choices : List ChatChoice)
  | val (v : PyVal)

/-- Outcome oracle for the remote endpoint: the result of the (single)
chat-completion call and of the (single) text-generation call that one run
of `generate_response` can issue. -/
structure Remote where
  chat : Except PyExc ChatResponse
  textGen : Except PyExc String

/-- A remote call actually issued, with the parameters passed:
`chat messages max_tokens temperature` or
`textGen prompt max_new_tokens temperature return_full_text`.
Messages are (role, content) pairs. -/
inductive Call where
  | chat (messages : List (String × String)) (maxTokens : Int) (temperature : ℚ)
  | textGen (prompt : String) (maxNewTokens : Int) (temperature : ℚ) (returnFullText : Bool)
deriving DecidableEq

/-- Whether a recorded call is a direct text-generation (completion) call. -/
def Call.isTextGen : Call → Bool
  | .chat _ _ _ => false
  | .textGen _ _ _ _ => true

/-- Number of text-generation (fallback-style) calls in a trace. -/
def countTextGen (tr : List Call) : Nat :=
  (tr.filter Call.isTextGen).length

-- Exceptions raised by Python operations during response decoding.  Their
-- exact texts are not depended upon by the program.

def keyErrorExc (k : String) : PyExc :=
  ⟨"\x27" ++ k ++ "\x27", "KeyError(\x27" ++ k ++ "\x27)"⟩

def typeErrorExc : PyExc :=
  ⟨"indices must be of a supported type", "TypeError(...)"⟩

def indexErrorExc : PyExc :=
  ⟨"list index out of range", "IndexError(\x27list index out of range\x27)"⟩

def attrErrorExc (ty attr : String) : PyExc :=
  ⟨"\x27" ++ ty ++ "\x27 object has no attribute \x27" ++ attr ++ "\x27",
   "AttributeError(...)"⟩

/-- Python subscript `v[k]` with a string key. -/
def pyGetKey (v : PyVal) (k : String) : Except PyExc PyVal :=
  match v with
  | .dict kvs =>
      match kvs.find? (fun kv => kv.1 == k) with
      | some kv => Except.ok kv.2
      | none => Except.error (keyErrorExc k)
  | .list _ => Except.error typeErrorExc
  | .str _ => Except.error typeErrorExc
  | .noneVal => Except.error typeErrorExc

/-- Python subscript `v[0]`. -/
def pyGetZero (v : PyVal) : Except PyExc PyVal :=
  match v with
  | .list (x :: _) => Except.ok x
  | .list [] => Except.error indexErrorExc
  | .dict _ => Except.error (keyErrorExc "0")
  | .str s =>
      match s.data with
      | ch :: _ => Except.ok (.str (String.mk [ch]))
      | [] => Except.error indexErrorExc
  | .noneVal => Except.error typeErrorExc

/-- Python `v.strip()`: succeeds only on strings.  The model
strips the same ASCII whitespace as Python on the inputs handled here. -/
def pyStripVal (v : PyVal) : Except PyExc String :=
  match v with
  | .str s => Except.ok (pyStrip s)
  | .dict _ => Except.error (attrErrorExc "dict" "strip")
  | .list _ => Except.error (attrErrorExc "list" "strip")
  | .noneVal => Except.error (attrErrorExc "NoneType" "strip")

/-- `response[\x27choices\x27][0][\x27message\x27][\x27content\x27].strip()`
(the dict-shaped decode branch of `generate_response`). -/
def decodeDictChoices (v : PyVal) : Except PyExc String := do
  let c ← pyGetKey v "choices"
  let c0 ← pyGetZero c
  let m ← pyGetKey c0 "message"
  let ct ← pyGetKey m "content"
  pyStripVal ct

/-- `\x27choices\x27 in response` for a raw (dict) value. -/
def hasChoicesKey : PyVal → Bool
  | .dict kvs => kvs.any (fun kv => kv.1 == "choices")
  | _ => false

/-- Text of `str()` on the structured response object of the client
library; the program reaches this only when `choices` is empty, and
no behaviour depends on its exact text. -/
def chatObjStr : String := "ChatCompletionOutput(choices=[])"

/-- The response-decoding block of `generate_response` (src/app.py lines
66-71), applied to the chat-completion result:
`if response and hasattr(response, \x27choices\x27) and response.choices:`
take `response.choices[0].message.content.strip()` (raising if `content`
is `None`); `elif isinstance(response, dict) and \x27choices\x27 in
response:` take the dict path; else `str(response).strip()`. -/
def decodeChat : ChatResponse → Except PyExc String
  | .obj (c :: _) =>
      match c.message.content with
      | some s => Except.ok (pyStrip s)
      | none => Except.error (attrErrorExc "NoneType" "strip")
  | .obj [] => Except.ok (pyStrip chatObjStr)
  | .val v =>
      if hasChoicesKey v then decodeDictChoices v
      else Except.ok (pyStrip (pyStrTop v))

/-- The configured model identifier (src/app.py line 6). -/
def model_name : String := "jacobpmeyer/book-advisor-merged"

/-- Status when the HF_TOKEN environment variable is unset (line 12). -/
def missingTokenMsg : String := "❌ HF_TOKEN environment variable not set"

/-- Status on successful client construction (line 20). -/
def readyMsg : String := "✅ Your personalized book advisor is ready!"

/-- Status for a 401/unauthorized initialization failure (line 29). -/
def authFailedMsg : String :=
  "❌ Authentication failed. Check your HF_TOKEN in Railway environment variables."

/-- Status for a 403/forbidden/gated initialization failure (line 31). -/
def accessDeniedMsg (errorMsg : String) : String :=
  "❌ Model access denied: " ++ model_name ++
  "\n\nYour model appears to be private/gated. To fix this:\n1. Go to https://huggingface.co/" ++
  model_name ++
  "\n2. Click \x27Settings\x27 → \x27Visibility\x27 → Make it \x27Public\x27\n3. OR ensure your HF_TOKEN has proper permissions for private models\n4. Refresh this page after changing visibility\n\nFull error: " ++
  errorMsg

/-- Status for a 404/not-found initialization failure (line 33). -/
def notFoundMsg : String :=
  "❌ Model not found: " ++ model_name ++
  "\n\nThis means your merged model hasn\x27t been created yet. Please:\n1. Run the merge script in Google Colab\n2. Wait for upload to complete\n3. Verify your model exists at: https://huggingface.co/" ++
  model_name

/-- Generic initialization-failure status (line 35). -/
def genericInitMsg (errorMsg repE : String) : String :=
  "❌ Error loading your model: " ++ errorMsg ++
  "\n\nFull error details: " ++ repE ++
  "\n\nTroubleshooting:\n1. Verify model exists: https://huggingface.co/" ++ model_name ++
  "\n2. Check HF_TOKEN permissions\n3. Make model public or ensure token has private model access\n4. Model might still be processing on HuggingFace (wait 5-10 minutes)\n5. Try the refresh button"

/-- The error-classification chain of `get_lora_client` (lines 28-35):
401/unauthorized, then 403/forbidden/gated, then 404/not-found, else the
generic message. -/
def classifyInitError (e : PyExc) : String :=
  if strContains e.msg "401" || strContains (pyLower e.msg) "unauthorized" then
    authFailedMsg
  else if strContains e.msg "403" || strContains (pyLower e.msg) "forbidden" ||
      strContains (pyLower e.msg) "gated" then
    accessDeniedMsg e.msg
  else if strContains e.msg "404" || strContains (pyLower e.msg) "not found" then
    notFoundMsg
  else
    genericInitMsg e.msg e.rep

/-- The classification chain in the order the claim states it: 401-family,
then 404-family, then 403-family, else generic.  Written from the words
of the claim, to be compared with `classifyInitError`. -/
def classifyInitErrorClaim (e : PyExc) : String :=
  if strContains e.msg "401" || strContains (pyLower e.msg) "unauthorized" then
    authFailedMsg
  else if strContains e.msg "404" || strContains (pyLower e.msg) "not found" then
    notFoundMsg
  else if strContains e.msg "403" || strContains (pyLower e.msg) "forbidden" ||
      strContains (pyLower e.msg) "gated" then
    accessDeniedMsg e.msg
  else
    genericInitMsg e.msg e.rep

/-- The classification chain in the amended order: 401-family, then
403-family, then 404-family, else generic.  Written from the words of
the amended claim, to be compared with `classifyInitError`. -/
def classifyInitErrorAmended (e : PyExc) : String :=
  if strContains e.msg "401" || strContains (pyLower e.msg) "unauthorized" then
    authFailedMsg
  else if strContains e.msg "403" || strContains (pyLower e.msg) "forbidden" ||
      strContains (pyLower e.msg) "gated" then
    accessDeniedMsg e.msg
  else if strContains e.msg "404" || strContains (pyLower e.msg) "not found" then
    notFoundMsg
  else
    genericInitMsg e.msg e.rep

/-- `if not hf_token:` — the token read from the environment is falsy when
the variable is unset (`None`) or set to the empty string. -/
def tokenMissing : Option String → Bool
  | none => true
  | some s => s == ""

/-- `get_lora_client` (src/app.py lines 9-35).  `ctor` is the outcome of
constructing `InferenceClient(model=model_name, token=hf_token)`: on
success it yields the handle (the remote-outcome oracle) through which
later calls are made. -/
def get_lora_client (hfToken : Option String) (ctor : Except PyExc Remote) :
    Option Remote × String :=
  if tokenMissing hfToken then
    (none, missingTokenMsg)
  else
    match ctor with
    | Except.ok c => (some c, readyMsg)
    | Except.error e => (none, classifyInitError e)

/-- Refusal returned by `generate_response` when no working client exists
(line 45); it embeds the global status message. -/
def refusalMsg (statusMessage : String) : String :=
  "🚫 Your personalized model isn\x27t available yet.\n\n" ++ statusMessage ++
  "\n\nThis app only works with your trained LoRA model - no generic substitutes!"

/-- Apology returned when the fallback produced no usable text (line 86). -/
def apologyMsg : String :=
  "I apologize, but I couldn\x27t generate a response. Please try rephrasing your question."

/-- The formatted generation-error string of the outer `except` (line 92). -/
def genErrorMsg (e : PyExc) : String :=
  "❌ Error with your model: " ++ e.msg ++ "\n\nFull error: " ++ e.rep ++
  "\n\nYour LoRA model exists but encountered an error. Try refreshing or check the logs."

/-- Prompt construction (lines 47-51): the `### Input:` section is present
exactly when `input_text.strip()` is truthy (non-blank). -/
def buildPrompt (instruction inputText : String) : String :=
  if pyStrip inputText != "" then
    "### Instruction:\n" ++ instruction ++ "\n\n### Input:\n" ++ inputText ++
      "\n\n### Response:\n"
  else
    "### Instruction:\n" ++ instruction ++ "\n\n### Response:\n"

/-- The fallback branch (lines 74-86): call `client.text_generation` with
`max_new_tokens=min(max_length, 200)`, `temperature=min(temperature, 0.8)`,
`return_full_text=False`; return the stripped text when
`response and len(response.strip()) > 0` (i.e. the text is non-blank), the
apology otherwise; a raised exception propagates to the outer `except`,
which formats it (line 92). -/
def runFallback (remote : Remote) (prompt : String) (maxLength : Int)
    (temperature : ℚ) (tr : List Call) : Except PyExc String × List Call :=
  let call := Call.textGen prompt (min maxLength 200) (ratMin temperature float08) false
  match remote.textGen with
  | Except.ok r =>
      if (r != "") && (pyStrip r != "") then (Except.ok (pyStrip r), tr ++ [call])
      else (Except.ok apologyMsg, tr ++ [call])
  | Except.error e => (Except.ok (genErrorMsg e), tr ++ [call])

/-- `generate_response` (src/app.py lines 41-92), with the globals
`client`/`is_working`/`status_message` passed as `clientOpt` and
`statusMessage` (`is_working` is `client is not None`, line 39).  Returns
the result — `Except.error` would mean an uncaught exception — together
with the trace of remote calls issued. -/
def generate_response (clientOpt : Option Remote) (statusMessage : String)
    (instruction inputText : String) (maxLength : Int) (temperature : ℚ) :
    Except PyExc String × List Call :=
  match clientOpt with
  | none => (Except.ok (refusalMsg statusMessage), [])
  | some remote =>
      let prompt := buildPrompt instruction inputText
      let messages := [("user", prompt)]
      let chatCall := Call.chat messages maxLength temperature
      match remote.chat with
      | Except.ok resp =>
          match decodeChat resp with
          | Except.ok s => (Except.ok s, [chatCall])
          | Except.error _ => runFallback remote prompt maxLength temperature [chatCall]
      | Except.error _ => runFallback remote prompt maxLength temperature [chatCall]

/-- `chat_interface` (src/app.py lines 94-101): forwards only the latest
message and the two tuning parameters to `generate_response`; the
`history` argument is accepted but unused, and `input_text` keeps its
default `""`. -/
def chat_interface (clientOpt : Option Remote) (statusMessage : String)
    (message : String) (_history : List (String × String))
    (temperature : ℚ) (maxLength : Int) : Except PyExc String × List Call :=
  generate_response clientOpt statusMessage message "" maxLength temperature

/-- Case-insensitive containment of the literal "not supported" in an
error text (the condition named by the specification). -/
def containsNotSupported (s : String) : Bool :=
  strContains (pyLower s) "not supported"


/-- `float08` is the float literal `0.8`. -/
theorem float08_eq : float08 = 0.8 := by
  have h : float08 = Rat.divInt 4 5 := Rat.mk'_eq_divInt
  rw [h, Rat.divInt_eq_div]
  norm_num

/-- `temp07` is the float literal `0.7`. -/
theorem temp07_eq : temp07 = 0.7 := by
  have h : temp07 = Rat.divInt 7 10 := Rat.mk'_eq_divInt
  rw [h, Rat.divInt_eq_div]
  norm_num

/-- `ratMin` is the lattice `min` on ℚ. -/
theorem ratMin_eq_min (a b : ℚ) : ratMin a b = min a b := by
  by_cases h : a ≤ b <;> simp [ratMin, min_def, h]

/-- The fallback never lets an exception escape: it always produces a
returned string. -/
theorem runFallback_fst (remote : Remote) (prompt : String) (ml : Int)
    (t : ℚ) (tr : List Call) :
    ∃ s, (runFallback remote prompt ml t tr).1 = Except.ok s := by
  unfold runFallback
  cases h : remote.textGen with
  | error e => exact ⟨_, rfl⟩
  | ok r =>
    dsimp only
    split
    · exact ⟨_, rfl⟩
    · exact ⟨_, rfl⟩

/-- The fallback issues exactly one text-generation call, with the capped
parameters. -/
theorem runFallback_snd (remote : Remote) (prompt : String) (ml : Int)
    (t : ℚ) (tr : List Call) :
    (runFallback remote prompt ml t tr).2 =
      tr ++ [Call.textGen prompt (min ml 200) (ratMin t float08) false] := by
  unfold runFallback
  cases h : remote.textGen with
  | error e => rfl
  | ok r =>
    dsimp only
    split
    · rfl
    · rfl


/-- Unfolding of `generate_response` at a present client. -/
theorem generate_response_some (remote : Remote) (st i c : String)
    (ml : Int) (t : ℚ) :
    generate_response (some remote) st i c ml t =
      match remote.chat with
      | Except.ok resp =>
          match decodeChat resp with
          | Except.ok s =>
              (Except.ok s, [Call.chat [("user", buildPrompt i c)] ml t])
          | Except.error _ =>
              runFallback remote (buildPrompt i c) ml t
                [Call.chat [("user", buildPrompt i c)] ml t]
      | Except.error _ =>
          runFallback remote (buildPrompt i c) ml t
            [Call.chat [("user", buildPrompt i c)] ml t] := rfl

/-- Claim C1: for every client state, every instruction, context,
max_length and temperature, and every outcome of the remote calls,
`generate_response` returns a string to its caller — the result is always
`Except.ok`, so no exception propagates out of any failure path. -/
theorem C1_generate_always_returns_string (clientOpt : Option Remote)
    (st i c : String) (ml : Int) (t : ℚ) :
    ∃ s : String,
      (generate_response clientOpt st i c ml t).1 = Except.ok s := by
  rcases clientOpt with _ | remote
  · exact ⟨_, rfl⟩
  · cases h : remote.chat with
    | error e =>
      simp only [generate_response_some, h]
      exact runFallback_fst remote _ ml t _
    | ok resp =>
      cases hd : decodeChat resp with
      | error e =>
        simp only [generate_response_some, h, hd]
        exact runFallback_fst remote _ ml t _
      | ok s => exact ⟨s, by simp only [generate_response_some, h, hd]⟩

/-- Claim C2 counterexample: a primary-call failure whose error text does
not contain "not supported" still triggers a fallback attempt, and the
fallback result (not a formatted error string) is returned. -/
theorem C2_counterexample :
    containsNotSupported "boom" = false ∧
    countTextGen
      ((generate_response
        (some ⟨Except.error ⟨"boom", "RuntimeError: boom"⟩, Except.ok "hello"⟩)
        readyMsg "Recommend a book" "" 400 temp07).2) = 1 ∧
    (generate_response
        (some ⟨Except.error ⟨"boom", "RuntimeError: boom"⟩, Except.ok "hello"⟩)
        readyMsg "Recommend a book" "" 400 temp07).1 = Except.ok "hello" := by
  refine ⟨by decide, by decide, rfl⟩

/-- Claim C2 (amended): for every primary-call failure — regardless of
whether its error text contains "not supported" — `generate_response`
attempts the fallback call style exactly once. -/
theorem C2_fallback_on_any_primary_failure (remote : Remote)
    (st i c : String) (ml : Int) (t : ℚ) (e : PyExc)
    (h : remote.chat = Except.error e) :
    countTextGen ((generate_response (some remote) st i c ml t).2) = 1 := by
  simp only [generate_response_some, h, runFallback_snd]
  rfl

/-- Witness for C2 (amended) at a concrete failing primary call. -/
theorem C2_witness :
    (⟨Except.error ⟨"E1", "R1"⟩, Except.ok "out"⟩ : Remote).chat =
      Except.error ⟨"E1", "R1"⟩ ∧
    countTextGen
      ((generate_response (some ⟨Except.error ⟨"E1", "R1"⟩, Except.ok "out"⟩)
        readyMsg "q" "" 400 temp07).2) = 1 :=
  ⟨rfl, C2_fallback_on_any_primary_failure _ readyMsg "q" "" 400 temp07
    ⟨"E1", "R1"⟩ rfl⟩

/-- Claim C3 counterexample: on a run with a successful remote call, the
only (hence first) remote call issued is a chat completion, not a direct
text completion — so the primary call carries no repetition penalty or
nucleus-sampling threshold at all. -/
theorem C3_counterexample :
    (generate_response
        (some ⟨Except.ok (ChatResponse.obj [⟨⟨some "ok"⟩⟩]), Except.ok "t"⟩)
        readyMsg "Q" "" 400 temp07).2 =
      [Call.chat [("user", buildPrompt "Q" "")] 400 temp07] ∧
    Call.isTextGen (Call.chat [("user", buildPrompt "Q" "")] 400 temp07) = false :=
  ⟨rfl, rfl⟩

/-- Claim C3 (amended): for every generation request with a working
client, the first remote call is a chat completion whose messages are the
single user prompt and whose parameters are the requested max
tokens and temperature of the caller. -/
theorem C3_primary_is_chat_completion (remote : Remote) (st i c : String)
    (ml : Int) (t : ℚ) :
    ((generate_response (some remote) st i c ml t).2).head? =
      some (Call.chat [("user", buildPrompt i c)] ml t) := by
  cases h : remote.chat with
  | error e => simp only [generate_response_some, h, runFallback_snd]; rfl
  | ok resp =>
    cases hd : decodeChat resp with
    | error e => simp only [generate_response_some, h, hd, runFallback_snd]; rfl
    | ok s => simp only [generate_response_some, h, hd]; rfl

/-- Claim C4: with the credential absent (unset or empty), initialization
yields a `none` handle and the missing-credential status; generation then
returns the refusal message embedding that status and issues no remote
call. -/
theorem C4_missing_credential (hfToken : Option String)
    (ctor : Except PyExc Remote) (i c : String) (ml : Int) (t : ℚ)
    (h : hfToken = none ∨ hfToken = some "") :
    (get_lora_client hfToken ctor).1 = none ∧
    (get_lora_client hfToken ctor).2 = missingTokenMsg ∧
    generate_response (get_lora_client hfToken ctor).1
        (get_lora_client hfToken ctor).2 i c ml t =
      (Except.ok (refusalMsg missingTokenMsg), []) := by
  rcases h with h | h <;> subst h <;> exact ⟨rfl, rfl, rfl⟩

/-- Witness for C4 at an unset token. -/
theorem C4_witness :
    ((none : Option String) = none ∨ (none : Option String) = some "") ∧
    ((get_lora_client none (Except.error ⟨"e", "E"⟩)).1 = none ∧
     (get_lora_client none (Except.error ⟨"e", "E"⟩)).2 = missingTokenMsg ∧
     generate_response (get_lora_client none (Except.error ⟨"e", "E"⟩)).1
        (get_lora_client none (Except.error ⟨"e", "E"⟩)).2 "Q" "" 400 temp07 =
      (Except.ok (refusalMsg missingTokenMsg), [])) :=
  ⟨Or.inl rfl,
   C4_missing_credential none (Except.error ⟨"e", "E"⟩) "Q" "" 400 temp07
     (Or.inl rfl)⟩

/-- Claim C5 counterexample: the response decoding does not resolve
`{"generated_text": "X"}` to `"X"`; it stringifies the dict wholesale. -/
theorem C5_counterexample :
    decodeChat (ChatResponse.val (PyVal.dict [("generated_text", PyVal.str "X")])) =
      Except.ok "\x7b\x27generated_text\x27: \x27X\x27\x7d" ∧
    ("\x7b\x27generated_text\x27: \x27X\x27\x7d" : String) ≠ "X" :=
  ⟨rfl, by decide⟩

/-- Claim C5 (amended): the decoding resolves only the
`choices[0].message.content` shape to `"X"` (attribute-style or
dict-style); the `generated_text` and `conversation` shapes are not
resolved — `str()` of the whole dict is returned instead. -/
theorem C5_decode_shapes :
    decodeChat (ChatResponse.obj [⟨⟨some "X"⟩⟩]) = Except.ok "X" ∧
    decodeChat (ChatResponse.val (PyVal.dict
      [("choices", PyVal.list [PyVal.dict
        [("message", PyVal.dict [("content", PyVal.str "X")])]])])) =
      Except.ok "X" ∧
    decodeChat (ChatResponse.val (PyVal.dict [("generated_text", PyVal.str "X")])) =
      Except.ok "\x7b\x27generated_text\x27: \x27X\x27\x7d" ∧
    decodeChat (ChatResponse.val (PyVal.dict
      [("conversation", PyVal.dict
        [("generated_responses", PyVal.list [PyVal.str "A", PyVal.str "X"])])])) =
      Except.ok "\x7b\x27conversation\x27: \x7b\x27generated_responses\x27: [\x27A\x27, \x27X\x27]\x7d\x7d" :=
  ⟨rfl, rfl, rfl, rfl⟩

/-- Claim C6: the prompt omits the `### Input:` section exactly when the
context is blank (empty or whitespace-only); a non-blank context appears
verbatim between the fixed `### Input:` and `### Response:` markers. -/
theorem C6_prompt_template (instruction inputText : String) :
    (pyStrip inputText = "" →
      buildPrompt instruction inputText =
        "### Instruction:\n" ++ instruction ++ "\n\n### Response:\n") ∧
    (pyStrip inputText ≠ "" →
      buildPrompt instruction inputText =
        "### Instruction:\n" ++ instruction ++ "\n\n### Input:\n" ++ inputText ++
          "\n\n### Response:\n") := by
  constructor <;> intro h <;> simp [buildPrompt, h]

/-- Witness for C6 at a whitespace-only context and at a non-blank one. -/
theorem C6_witness :
    buildPrompt "Recommend" "  " = "### Instruction:\nRecommend\n\n### Response:\n" ∧
    buildPrompt "Recommend" "sci-fi" =
      "### Instruction:\nRecommend\n\n### Input:\nsci-fi\n\n### Response:\n" :=
  ⟨(C6_prompt_template "Recommend" "  ").1 (by decide),
   (C6_prompt_template "Recommend" "sci-fi").2 (by decide)⟩


/-- Claim C7 counterexample: on an error whose text contains both a
403-family and a 404-family marker, the code reports access denied (403
family is checked first), while the chain of the claim — 404 before 403
family — reports "model not found". -/
theorem C7_counterexample :
    classifyInitError ⟨"HTTP 403: model 404 not found", "E"⟩ =
      accessDeniedMsg "HTTP 403: model 404 not found" ∧
    classifyInitErrorClaim ⟨"HTTP 403: model 404 not found", "E"⟩ = notFoundMsg ∧
    accessDeniedMsg "HTTP 403: model 404 not found" ≠ notFoundMsg :=
  ⟨rfl, rfl, by decide⟩

/-- Claim C7 (amended): a failing initialization with the credential
present classifies the error by substrings of its text, in the order
401/unauthorized → authentication failure, then 403/forbidden/gated →
access denied with remediation guidance, then 404/not found → model not
provisioned, anything else → generic failure echoing the raw error. -/
theorem C7_classification (hfToken : Option String) (e : PyExc)
    (h : tokenMissing hfToken = false) :
    get_lora_client hfToken (Except.error e) =
      (none, classifyInitErrorAmended e) := by
  simp only [get_lora_client, h]
  rfl

/-- Witness for C7 (amended) at a present token and a 401-style error. -/
theorem C7_witness :
    tokenMissing (some "tok123") = false ∧
    get_lora_client (some "tok123") (Except.error ⟨"401 Client Error", "E"⟩) =
      (none, classifyInitErrorAmended ⟨"401 Client Error", "E"⟩) :=
  ⟨rfl, C7_classification (some "tok123") ⟨"401 Client Error", "E"⟩ rfl⟩

/-- Claim C8 counterexample: a successful fallback call returning
whitespace-only text makes `generate_response` return the apology
message, not the trimmed (empty) remote result. -/
theorem C8_counterexample :
    (generate_response (some ⟨Except.error ⟨"err", "E(err)"⟩, Except.ok "   "⟩)
        readyMsg "Q" "" 400 temp07).1 = Except.ok apologyMsg ∧
    apologyMsg ≠ pyStrip "   " :=
  ⟨rfl, by decide⟩

/-- Claim C8 (amended): the decoded content of a successful primary call is
returned trimmed of surrounding whitespace, and the text of a
successful fallback call is returned trimmed when it is non-blank; a blank (empty or
whitespace-only) fallback text yields the apology message instead. -/
theorem C8_trimmed_results (remote : Remote) (st i c : String) (ml : Int)
    (t : ℚ) :
    (∀ content : String,
        remote.chat = Except.ok (ChatResponse.obj [⟨⟨some content⟩⟩]) →
        (generate_response (some remote) st i c ml t).1 =
          Except.ok (pyStrip content)) ∧
    (∀ (e : PyExc) (r : String),
        remote.chat = Except.error e → remote.textGen = Except.ok r →
        pyStrip r ≠ "" →
        (generate_response (some remote) st i c ml t).1 =
          Except.ok (pyStrip r)) ∧
    (∀ (e : PyExc) (r : String),
        remote.chat = Except.error e → remote.textGen = Except.ok r →
        pyStrip r = "" →
        (generate_response (some remote) st i c ml t).1 =
          Except.ok apologyMsg) := by
  refine ⟨?_, ?_, ?_⟩
  · intro content h
    simp only [generate_response_some, h, decodeChat]
  · intro e r h ht hne
    have hr : r ≠ "" := by
      intro hr0
      exact hne (by rw [hr0]; rfl)
    have hcond : ((r != "") && (pyStrip r != "")) = true := by
      simp [bne_iff_ne, hr, hne]
    simp only [generate_response_some, h, runFallback, ht, hcond]
    rfl
  · intro e r h ht hz
    have hcond : ((r != "") && (pyStrip r != "")) = false := by
      simp [hz]
    simp only [generate_response_some, h, runFallback, ht, hcond]
    rfl

/-- Witness for C8 (amended): the example given by the claim on the primary
path, a non-blank fallback, and a blank fallback. -/
theorem C8_witness :
    (generate_response
        (some ⟨Except.ok (ChatResponse.obj [⟨⟨some "  Some text.  "⟩⟩]),
          Except.ok ""⟩) readyMsg "Q" "" 400 temp07).1 =
      Except.ok "Some text." ∧
    (generate_response (some ⟨Except.error ⟨"e", "E"⟩, Except.ok "  hi  "⟩)
        readyMsg "Q" "" 400 temp07).1 = Except.ok "hi" ∧
    (generate_response (some ⟨Except.error ⟨"e", "E"⟩, Except.ok " "⟩)
        readyMsg "Q" "" 400 temp07).1 = Except.ok apologyMsg := by
  refine ⟨?_, ?_, ?_⟩
  · have h := (C8_trimmed_results
      ⟨Except.ok (ChatResponse.obj [⟨⟨some "  Some text.  "⟩⟩]), Except.ok ""⟩
      readyMsg "Q" "" 400 temp07).1 "  Some text.  " rfl
    rw [h]
    rfl
  · have h := (C8_trimmed_results ⟨Except.error ⟨"e", "E"⟩, Except.ok "  hi  "⟩
      readyMsg "Q" "" 400 temp07).2.1 ⟨"e", "E"⟩ "  hi  " rfl rfl (by decide)
    rw [h]
    rfl
  · exact (C8_trimmed_results ⟨Except.error ⟨"e", "E"⟩, Except.ok " "⟩
      readyMsg "Q" "" 400 temp07).2.2 ⟨"e", "E"⟩ " " rfl rfl (by decide)

/-- Claim C9: the chat interface ignores its history argument — for any
two histories and the same message and tuning parameters, the result is
identical. -/
theorem C9_history_ignored (clientOpt : Option Remote) (st msg : String)
    (t : ℚ) (ml : Int) (h1 h2 : List (String × String)) :
    chat_interface clientOpt st msg h1 t ml =
      chat_interface clientOpt st msg h2 t ml := rfl

/-- Claim C10: every text-generation (fallback) call issued by
`generate_response` uses the prompt, max new tokens capped at
`min(max_length, 200)`, temperature capped at `min(temperature, 0.8)`,
and `return_full_text=False` — caller values above the caps are silently
reduced on that path. -/
theorem C10_fallback_caps (remote : Remote) (st i c : String) (ml : Int)
    (t : ℚ) (p : String) (n : Int) (tq : ℚ) (b : Bool)
    (h : Call.textGen p n tq b ∈ (generate_response (some remote) st i c ml t).2) :
    p = buildPrompt i c ∧ n = min ml 200 ∧ tq = min t (0.8 : ℚ) ∧ b = false := by
  have done : p = buildPrompt i c ∧ n = min ml 200 ∧
      tq = ratMin t float08 ∧ b = false := by
    cases hc : remote.chat with
    | error e =>
      simp only [generate_response_some, hc, runFallback_snd] at h
      simp at h
      exact h
    | ok resp =>
      cases hd : decodeChat resp with
      | error e1 =>
        simp only [generate_response_some, hc, hd, runFallback_snd] at h
        simp at h
        exact h
      | ok s =>
        simp only [generate_response_some, hc, hd] at h
        simp at h
  exact ⟨done.1, done.2.1, by rw [done.2.2.1, ratMin_eq_min, float08_eq],
    done.2.2.2⟩

/-- Witness for C10 at a failing primary call with requested max length
400 and temperature 0.7. -/
theorem C10_witness :
    Call.textGen (buildPrompt "Q" "") 200 (ratMin temp07 float08) false ∈
      (generate_response (some ⟨Except.error ⟨"x", "X"⟩, Except.ok "out"⟩)
        readyMsg "Q" "" 400 temp07).2 ∧
    (buildPrompt "Q" "" = buildPrompt "Q" "" ∧ (200 : Int) = min 400 200 ∧
      ratMin temp07 float08 = min temp07 (0.8 : ℚ) ∧ false = false) :=
  ⟨by decide,
   C10_fallback_caps ⟨Except.error ⟨"x", "X"⟩, Except.ok "out"⟩
     readyMsg "Q" "" 400 temp07 _ _ _ _ (by decide)⟩

end BookAdvisor
